import Mathlib

/-!
Verification of the tunnel connection-parameter resolution and
authentication bootstrap of the `boring` repository
(package `tunnel`: `makeRunConfig`, `parseSSHConf`, `validate`,
`makeClientConfig`, `fillHome`, `sshConfigPath`).

External effects (file system, the `ssh_config` decoder, the private-key
parser, the known-hosts store constructor, the `HOME` environment
variable) are modelled by an abstract `World`; warnings written to the
diagnostic sink (`log.Warningf`) are accumulated as an explicit list of
message strings.
-/

namespace Boring

/-- Result of a Go file-system read: Go code under scrutiny only tests
`err != nil`, but the distinct causes matter for stating claims about
missing versus unreadable files. -/
inductive FileErr where
  | notExist
  | permission
  | other
deriving DecidableEq, Repr

/-- A decoded `ssh_config.Config`: `Get al key` returns the value
string, `""` when absent (the Go code discards `Get`'s error value). -/
abbrev SSHConf := String → String → String

/-- An `ssh.Signer`, opaque to this core. -/
abbrev Signer := String

/-- The ambient effects of a resolution: `HOME`, file reads, the external
`ssh_config.Decode`, `ssh.ParsePrivateKey` and `knownhosts.New`. -/
structure World where
  home : String
  readFile : String → Except FileErr String
  decode : String → Except String SSHConf
  parseKey : String → Except String Signer
  knownHostsNew : String → Except String Unit

/-- `const sshPort = 22`. -/
def sshPort : Int := 22

/-- `sshConnTimeout = 10 * time.Second`, in seconds. -/
def sshConnTimeout : Nat := 10

/-- `var defaultKeys = []string{...}`. -/
def defaultKeys : List String := ["~/.ssh/id_rsa", "~/.ssh/id_ecdsa", "~/.ssh/id_ed25519"]

/-- Abstraction of Go `filepath.Join` on two components (path cleaning of
redundant separators is not modelled; no claim depends on it). -/
def joinPath (a b : String) : String :=
  if a = "" then b else if b = "" then a else a ++ "/" ++ b

/-- `func sshConfigPath(filename string) string`. -/
def sshConfigPath (w : World) (filename : String) : String :=
  joinPath (joinPath w.home ".ssh") filename

/-- `func fillHome(path string) string`. The Go byte test
`strings.HasPrefix(path, "~/")` and the byte slice `path[2:]` are taken
on the character list, which coincides for the ASCII needle `~/`. -/
def fillHome (home path : String) : String :=
  if path = "~" then home
  else if "~/".data.isPrefixOf path.data then joinPath home ⟨path.data.drop 2⟩
  else path

/-- Fold a digit list into a natural number (helper for `atoi`). -/
def digitsToNat (l : List Char) : Nat :=
  l.foldl (fun acc c => acc * 10 + (c.toNat - 48)) 0

/-- Syntactic part of Go `strconv.Atoi`: optional sign followed by a
non-empty run of decimal digits; `none` on a syntax error. -/
def atoiParse (s : String) : Option Int :=
  match s.data with
  | [] => none
  | c :: rest =>
    let signDigits : Int × List Char :=
      if c = '-' then (-1, rest)
      else if c = '+' then (1, rest)
      else (1, c :: rest)
    if signDigits.2 = [] then none
    else if signDigits.2.all Char.isDigit then
      some (signDigits.1 * (digitsToNat signDigits.2 : Int))
    else none

def maxInt64 : Int := 9223372036854775807

def minInt64 : Int := -9223372036854775808

/-- Go `strconv.Atoi` with its error discarded, as in
`rc.port, _ = strconv.Atoi(port)`: 0 on a syntax error, and the clamped
64-bit value on a range error (Go returns `MaxInt64`/`MinInt64` together
with `ErrRange`, and the caller keeps the value). -/
def atoi (s : String) : Int :=
  match atoiParse s with
  | none => 0
  | some v => if v > maxInt64 then maxInt64 else if v < minInt64 then minInt64 else v

/-- The caller-owned tunnel declaration: the fields of `Tunnel` read by
`makeRunConfig` (`Host`, `User`, `Port`, `IdentityFile`, `LocalAddress`,
`RemoteAddress`). -/
structure Tunnel where
  host : String
  user : String
  port : Int
  identityFile : String
  localAddress : String
  remoteAddress : String
deriving DecidableEq, Repr

/-- The `ssh.ClientConfig` produced by `makeClientConfig`: user, the
signer list wrapped as the single public-key auth method, the host-key
callback (opaque), and the timeout in seconds. -/
structure ClientConfig where
  user : String
  signers : List Signer
  hostKeyCallback : Unit
  timeout : Nat
deriving DecidableEq, Repr

/-- `type runConfig struct`; Go's zero value is the default. -/
structure RunConfig where
  localAddress : String := ""
  remoteAddress : String := ""
  hostName : String := ""
  user : String := ""
  port : Int := 0
  identityFile : String := ""
  clientConfig : Option ClientConfig := none
deriving DecidableEq, Repr

/-- `func parseSSHConf(alias string, rc *runConfig) error`: a failed
`os.Open` returns `nil` (no error, `rc` untouched); a failed
`ssh_config.Decode` is an error; otherwise the four fields are filled
from the decoded config, the port through `strconv.Atoi` with its error
discarded. -/
def parseSSHConf (w : World) (al : String) (rc : RunConfig) : Except String RunConfig :=
  match w.readFile (sshConfigPath w "config") with
  | .error _ => .ok rc
  | .ok contents =>
    match w.decode contents with
    | .error e => .error ("could not decode ssh config: " ++ e)
    | .ok conf =>
      .ok { rc with
        identityFile := conf al "IdentityFile"
        user := conf al "User"
        port := atoi (conf al "Port")
        hostName := conf al "HostName" }

/-- The `// Override values which were manually set by user` block of
`makeRunConfig`. -/
def applyOverrides (t : Tunnel) (rc : RunConfig) : RunConfig :=
  let rc1 := if t.user ≠ "" then { rc with user := t.user } else rc
  let rc2 := if t.port ≠ 0 then { rc1 with port := t.port } else rc1
  if t.identityFile ≠ "" then { rc2 with identityFile := t.identityFile } else rc2

/-- The default-port and literal-host-name fallback block of
`makeRunConfig`. -/
def applyDefaults (t : Tunnel) (rc : RunConfig) : RunConfig :=
  let rc1 := if rc.port = 0 then { rc with port := sshPort } else rc
  if rc1.hostName = "" then { rc1 with hostName := t.host } else rc1

/-- `func validate(rc *runConfig) error`. -/
def validate (rc : RunConfig) : Except String Unit :=
  if rc.hostName = "" then .error "no host specified."
  else if rc.user = "" then .error "no user specified."
  else if rc.port = 0 then .error "no port specified."
  else .ok ()

/-- Warning emitted by `makeClientConfig` on a key-parse failure:
`log.Warningf("Unable to parse private key %v: %v", i, err)`. -/
def warnMsg (i err : String) : String :=
  "Unable to parse private key " ++ i ++ ": " ++ err

/-- The candidate loop of `makeClientConfig`: read each candidate
(`fillHome`-expanded), skip silently on a read error, warn and continue
on a parse error, accumulate signers in scan order. Returns the signer
list and the warning list. -/
def scanKeys (w : World) : List String → List Signer × List String
  | [] => ([], [])
  | i :: rest =>
    match w.readFile (fillHome w.home i) with
    | .error _ => scanKeys w rest
    | .ok key =>
      match w.parseKey key with
      | .error e =>
        let r := scanKeys w rest
        (r.1, warnMsg i e :: r.2)
      | .ok signer =>
        let r := scanKeys w rest
        (signer :: r.1, r.2)

/-- `func makeClientConfig(user, identityFile string)`: scan
`[identityFile] + defaultKeys`, fail with "no key files found." on an
empty signer set, then construct the known-hosts callback, whose failure
propagates unwrapped. The second component is the list of warnings
emitted to the diagnostic sink. -/
def makeClientConfig (w : World) (user identityFile : String) :
    Except String ClientConfig × List String :=
  let r := scanKeys w (identityFile :: defaultKeys)
  if r.1 = [] then (.error "no key files found.", r.2)
  else
    match w.knownHostsNew (sshConfigPath w "known_hosts") with
    | .error e => (.error e, r.2)
    | .ok cb =>
      (.ok { user := user, signers := r.1, hostKeyCallback := cb,
             timeout := sshConnTimeout }, r.2)

/-- The local-address normalization of `makeRunConfig`:
`if !strings.Contains(t.LocalAddress, ":") { rc.localAddress = "localhost:" + rc.localAddress }`.
`strings.Contains(s, ":")` with a one-character needle is character
membership. -/
def normalizeLocal (s : String) : String :=
  if s.data.contains ':' then s else "localhost:" ++ s

/-- The resolution state after `parseSSHConf`, the user overrides and the
default/fallback block — just before `validate` is called in
`makeRunConfig`. -/
def preRC (w : World) (t : Tunnel) : Except String RunConfig :=
  match parseSSHConf w t.host {} with
  | .error e => .error e
  | .ok rc0 => .ok (applyDefaults t (applyOverrides t rc0))

/-- `func (t *Tunnel) makeRunConfig() error`, returning the resolved
`runConfig` (assigned to `t.rc` on success) or the error, together with
the warnings emitted to the diagnostic sink. -/
def makeRunConfig (w : World) (t : Tunnel) : Except String RunConfig × List String :=
  match parseSSHConf w t.host {} with
  | .error e => (.error ("could not parse SSH config: " ++ e), [])
  | .ok rc0 =>
    let rc := applyDefaults t (applyOverrides t rc0)
    match validate rc with
    | .error e => (.error e, [])
    | .ok _ =>
      match makeClientConfig w rc.user rc.identityFile with
      | (.error e, warns) => (.error ("could not make client config: " ++ e), warns)
      | (.ok cc, warns) =>
        (.ok { rc with clientConfig := some cc
                       remoteAddress := t.remoteAddress
                       localAddress := normalizeLocal t.localAddress }, warns)

/-- Whether an `Except` computation succeeded. -/
def isOk {ε α : Type} : Except ε α → Bool
  | .ok _ => true
  | .error _ => false

end Boring

deriving instance DecidableEq for Except

namespace Boring

lemma merged_user (t : Tunnel) (rc0 : RunConfig) :
    (applyDefaults t (applyOverrides t rc0)).user =
      if t.user = "" then rc0.user else t.user := by
  simp only [applyOverrides, applyDefaults]
  split_ifs <;> simp_all

lemma merged_identityFile (t : Tunnel) (rc0 : RunConfig) :
    (applyDefaults t (applyOverrides t rc0)).identityFile =
      if t.identityFile = "" then rc0.identityFile else t.identityFile := by
  simp only [applyOverrides, applyDefaults]
  split_ifs <;> simp_all

lemma merged_port (t : Tunnel) (rc0 : RunConfig) :
    (applyDefaults t (applyOverrides t rc0)).port =
      if t.port ≠ 0 then t.port
      else if rc0.port ≠ 0 then rc0.port else 22 := by
  simp only [applyOverrides, applyDefaults, sshPort]
  split_ifs <;> simp_all

lemma validate_ok_fields (rc : RunConfig) (h : validate rc = .ok ()) :
    rc.hostName ≠ "" ∧ rc.user ≠ "" ∧ rc.port ≠ 0 := by
  unfold validate at h
  split_ifs at h
  simp_all

lemma preRC_ok_inv (w : World) (t : Tunnel) (rc : RunConfig)
    (h : preRC w t = .ok rc) :
    ∃ rc0, parseSSHConf w t.host {} = .ok rc0 ∧
      rc = applyDefaults t (applyOverrides t rc0) := by
  unfold preRC at h
  cases hp : parseSSHConf w t.host {} with
  | error e => rw [hp] at h; simp at h
  | ok rc0 =>
    rw [hp] at h
    simp only [Except.ok.injEq] at h
    exact ⟨rc0, rfl, h.symm⟩

lemma scanKeys_nil_of_unreadable (w : World) (l : List String)
    (h : ∀ i ∈ l, isOk (w.readFile (fillHome w.home i)) = false) :
    scanKeys w l = ([], []) := by
  induction l with
  | nil => rfl
  | cons i rest ih =>
    have hi := h i (by simp)
    cases hr : w.readFile (fillHome w.home i) with
    | error fe =>
      simp only [scanKeys, hr]
      exact ih fun j hj => h j (List.mem_cons_of_mem i hj)
    | ok b => rw [hr] at hi; simp [isOk] at hi

lemma makeRunConfig_ok_shape (w : World) (t : Tunnel) (rc : RunConfig)
    (h : (makeRunConfig w t).1 = .ok rc) :
    ∃ rc0 cc, parseSSHConf w t.host {} = .ok rc0 ∧
      validate (applyDefaults t (applyOverrides t rc0)) = .ok () ∧
      rc = { applyDefaults t (applyOverrides t rc0) with
             clientConfig := some cc
             remoteAddress := t.remoteAddress
             localAddress := normalizeLocal t.localAddress } := by
  unfold makeRunConfig at h
  cases hp : parseSSHConf w t.host {} with
  | error e => rw [hp] at h; simp at h
  | ok rc0 =>
    rw [hp] at h
    simp only at h
    cases hv : validate (applyDefaults t (applyOverrides t rc0)) with
    | error e => rw [hv] at h; simp at h
    | ok u =>
      cases u
      rw [hv] at h
      simp only at h
      cases hmc : makeClientConfig w (applyDefaults t (applyOverrides t rc0)).user
          (applyDefaults t (applyOverrides t rc0)).identityFile with
      | mk res warns =>
        rw [hmc] at h
        cases res with
        | error e => simp at h
        | ok cc =>
          simp only [Except.ok.injEq] at h
          exact ⟨rc0, cc, rfl, hv, h.symm⟩

/-! Concrete worlds, configs and tunnel declarations used as witnesses
and counterexamples. -/

/-- A decoded config with an entry for alias `myhost`:
`HostName example.com`, `User alice`, `Port 2222`. -/
def confMyhost : SSHConf := fun al key =>
  if al = "myhost" then
    if key = "User" then "alice"
    else if key = "Port" then "2222"
    else if key = "HostName" then "example.com"
    else ""
  else ""

/-- A world with a readable, well-formed config file, a readable and
parsable RSA default key, and a constructible known-hosts store. -/
def worldFull : World where
  home := "/h"
  readFile := fun p =>
    if p = "/h/.ssh/config" then .ok "CFG"
    else if p = "/h/.ssh/id_rsa" then .ok "KEY"
    else .error .notExist
  decode := fun s => if s = "CFG" then .ok confMyhost else .error "bad"
  parseKey := fun b => if b = "KEY" then .ok "SIG" else .error "parse"
  knownHostsNew := fun p => if p = "/h/.ssh/known_hosts" then .ok () else .error "kh"

/-- A declaration that only names the alias `myhost`. -/
def tunnelAliasOnly : Tunnel where
  host := "myhost"
  user := ""
  port := 0
  identityFile := ""
  localAddress := "8080"
  remoteAddress := "r:1"

/-- A world in which every external operation fails: no file is
readable, nothing decodes or parses, the known-hosts store cannot be
built. -/
def worldBare : World where
  home := "/h"
  readFile := fun _ => .error .notExist
  decode := fun _ => .error "bad"
  parseKey := fun _ => .error "parse"
  knownHostsNew := fun _ => .error "kh"

/-- The all-empty declaration (empty alias, no overrides). -/
def tunnelEmpty : Tunnel where
  host := ""
  user := ""
  port := 0
  identityFile := ""
  localAddress := ""
  remoteAddress := ""

/-- A world whose config file exists but is unreadable (`EACCES`-style
open failure), while a default key and the known-hosts store work. -/
def worldPerm : World where
  home := "/h"
  readFile := fun p =>
    if p = "/h/.ssh/config" then .error .permission
    else if p = "/h/.ssh/id_rsa" then .ok "KEY"
    else .error .notExist
  decode := fun _ => .error "bad"
  parseKey := fun b => if b = "KEY" then .ok "SIG" else .error "parse"
  knownHostsNew := fun p => if p = "/h/.ssh/known_hosts" then .ok () else .error "kh"

/-- A direct `user@host`-style declaration: explicit user, literal host,
no port, no identity file. -/
def tunnelDirect : Tunnel where
  host := "example.com"
  user := "u"
  port := 0
  identityFile := ""
  localAddress := "8080"
  remoteAddress := "r:1"

/-- Like `tunnelDirect` but with an explicit negative port. -/
def tunnelNegPort : Tunnel where
  host := "example.com"
  user := "u"
  port := -1
  identityFile := ""
  localAddress := "8080"
  remoteAddress := "r:1"

/-- A world whose config file reads fine but does not decode. -/
def worldBadDecode : World where
  home := "/h"
  readFile := fun p => if p = "/h/.ssh/config" then .ok "CFG" else .error .notExist
  decode := fun _ => .error "bad"
  parseKey := fun _ => .error "parse"
  knownHostsNew := fun _ => .error "kh"

/-- A decoded config with no entry for any alias. -/
def confBlank : SSHConf := fun _ _ => ""

/-- A world whose config file decodes to `confBlank`. -/
def worldBlankConf : World where
  home := "/h"
  readFile := fun p => if p = "/h/.ssh/config" then .ok "CFG" else .error .notExist
  decode := fun s => if s = "CFG" then .ok confBlank else .error "bad"
  parseKey := fun _ => .error "parse"
  knownHostsNew := fun _ => .error "kh"

/-- A world with a working default key but a known-hosts store that
cannot be constructed. -/
def worldKHFail : World where
  home := "/h"
  readFile := fun p => if p = "/h/.ssh/id_rsa" then .ok "KEY" else .error .notExist
  decode := fun _ => .error "bad"
  parseKey := fun b => if b = "KEY" then .ok "SIG" else .error "parse"
  knownHostsNew := fun _ => .error "kh"

/-- A world with a readable but unparsable declared key at
`~/.ssh/badkey` followed by a valid RSA default key. -/
def worldBadKey : World where
  home := "/h"
  readFile := fun p =>
    if p = "/h/.ssh/badkey" then .ok "BAD"
    else if p = "/h/.ssh/id_rsa" then .ok "KEY"
    else .error .notExist
  decode := fun _ => .error "bad"
  parseKey := fun b => if b = "KEY" then .ok "SIG" else .error "parse"
  knownHostsNew := fun p => if p = "/h/.ssh/known_hosts" then .ok () else .error "kh"

/-- A decoded config whose `Port` directive for `myhost` is not a
decimal integer. -/
def confBadPort : SSHConf := fun al key =>
  if al = "myhost" then
    if key = "User" then "alice"
    else if key = "Port" then "abc"
    else if key = "HostName" then "example.com"
    else ""
  else ""

/-- A world whose config file decodes to `confBadPort`. -/
def worldBadPort : World where
  home := "/h"
  readFile := fun p => if p = "/h/.ssh/config" then .ok "CFG" else .error .notExist
  decode := fun s => if s = "CFG" then .ok confBadPort else .error "bad"
  parseKey := fun _ => .error "parse"
  knownHostsNew := fun _ => .error "kh"

/-! The claims. -/

/-- C7: local address normalization rewrites a spec with no colon to
`localhost:<spec>` (`"8080"` becomes `"localhost:8080"`), leaves an
already-qualified address such as `"0.0.0.0:8080"` unchanged, and is
idempotent on every input string. -/
theorem c7_normalize_local :
    normalizeLocal "8080" = "localhost:8080" ∧
    normalizeLocal "0.0.0.0:8080" = "0.0.0.0:8080" ∧
    ∀ s : String, normalizeLocal (normalizeLocal s) = normalizeLocal s := by
  refine ⟨by decide, by decide, fun s => ?_⟩
  unfold normalizeLocal
  by_cases h : s.data.contains ':'
  · rw [if_pos h, if_pos h]
  · rw [if_neg h]
    have hc : ("localhost:" ++ s).data.contains ':' = true := by
      rw [String.data_append]; simp
    rw [if_pos hc]

/-- C4: when no candidate key file (the declared identity file followed
by the three default key paths) can be read, `makeClientConfig` fails
with the error "no key files found." and the signer set is empty; no
warning is emitted. -/
theorem c4_no_readable_keys (w : World) (u idf : String)
    (h : ∀ i ∈ idf :: defaultKeys, isOk (w.readFile (fillHome w.home i)) = false) :
    makeClientConfig w u idf = (.error "no key files found.", []) ∧
    (scanKeys w (idf :: defaultKeys)).1 = [] := by
  have hs := scanKeys_nil_of_unreadable w (idf :: defaultKeys) h
  exact ⟨by simp [makeClientConfig, hs], by rw [hs]⟩

/-- Witness for C4 at a concrete world in which no file is readable. -/
theorem c4_no_readable_keys_witness :
    makeClientConfig worldBare "u" "" = (.error "no key files found.", []) :=
  (c4_no_readable_keys worldBare "u" "" (by decide)).1

/-- C2 counterexample: the all-empty declaration has an alias (the empty
string) matching no configuration entry and sets no explicit field, yet
resolution fails naming the host, not the user: the claim's error does
not hold at this input. -/
theorem c2_counterexample :
    makeRunConfig worldBare tunnelEmpty = (.error "no host specified.", []) ∧
    "no host specified." ≠ "no user specified." := by decide

/-- C2 (amended): for every declaration with a NON-EMPTY alias matching
no configuration entry and no explicit user, port or identity file,
resolution fails with "no user specified.", and in that resolution the
host name has fallen back to the alias itself and the port has defaulted
to 22. -/
theorem c2_missing_user (w : World) (t : Tunnel)
    (hhost : t.host ≠ "")
    (hentry : parseSSHConf w t.host {} = .ok {})
    (hu : t.user = "") (hp : t.port = 0) (hi : t.identityFile = "") :
    makeRunConfig w t = (.error "no user specified.", []) ∧
    preRC w t = .ok { hostName := t.host, port := 22 } := by
  have hmerged : applyDefaults t (applyOverrides t {}) =
      { hostName := t.host, port := 22 } := by
    simp [applyOverrides, applyDefaults, hu, hp, hi, sshPort]
  constructor
  · simp [makeRunConfig, hentry, hmerged, validate, hhost]
  · simp [preRC, hentry, hmerged]

/-- Witness for C2 (amended) at a concrete declaration naming only the
alias `myhost` in a world with no config file. -/
theorem c2_missing_user_witness :
    makeRunConfig worldBare tunnelAliasOnly = (.error "no user specified.", []) :=
  (c2_missing_user worldBare tunnelAliasOnly (by decide) (by decide)
    rfl rfl rfl).1

/-- C3: client authentication configuration is only constructed after
validation has succeeded: if validation of the merged run configuration
fails, `makeRunConfig` returns that validation error untouched and emits
no warnings (no key scanning happened); and whenever validation lets the
resolution proceed, hostName and user are non-empty and port is
non-zero. -/
theorem c3_client_config_gated (w : World) (t : Tunnel) (rc : RunConfig)
    (hpre : preRC w t = .ok rc) :
    (∀ e, validate rc = .error e → makeRunConfig w t = (.error e, [])) ∧
    (validate rc = .ok () → rc.hostName ≠ "" ∧ rc.user ≠ "" ∧ rc.port ≠ 0) := by
  obtain ⟨rc0, hp0, hrc⟩ := preRC_ok_inv w t rc hpre
  subst hrc
  refine ⟨fun e hv => ?_, fun hv => validate_ok_fields _ hv⟩
  simp [makeRunConfig, hp0, hv]

/-- Witness for C3 at a concrete declaration whose validation fails for
want of a user. -/
theorem c3_client_config_gated_witness :
    makeRunConfig worldBare tunnelAliasOnly = (.error "no user specified.", []) ∧
    ({ hostName := "myhost", port := 22 } : RunConfig).hostName ≠ "" :=
  ⟨(c3_client_config_gated worldBare tunnelAliasOnly
      { hostName := "myhost", port := 22 } (by decide)).1
      "no user specified." (by decide),
   by decide⟩

/-- C1: each resolved field comes from the highest-precedence source
supplying it — an explicit non-empty (non-zero for the port) declaration
field beats the configuration-file value for the alias, which beats the
built-in default (22 for the port, nothing for user or identity file):
for every successful resolution against a readable, decodable config. -/
theorem c1_precedence (w : World) (t : Tunnel) (contents : String) (conf : SSHConf)
    (rc : RunConfig)
    (hread : w.readFile (sshConfigPath w "config") = .ok contents)
    (hdec : w.decode contents = .ok conf)
    (hok : (makeRunConfig w t).1 = .ok rc) :
    rc.user = (if t.user = "" then conf t.host "User" else t.user) ∧
    rc.port = (if t.port ≠ 0 then t.port
               else if atoi (conf t.host "Port") ≠ 0 then atoi (conf t.host "Port")
               else 22) ∧
    rc.identityFile = (if t.identityFile = "" then conf t.host "IdentityFile"
                       else t.identityFile) := by
  obtain ⟨rc0, cc, hp0, hv, hrc⟩ := makeRunConfig_ok_shape w t rc hok
  simp only [parseSSHConf, hread, hdec, Except.ok.injEq] at hp0
  subst hp0
  subst hrc
  refine ⟨?_, ?_, ?_⟩
  · show (applyDefaults t (applyOverrides t _)).user = _
    rw [merged_user]
  · show (applyDefaults t (applyOverrides t _)).port = _
    rw [merged_port]
  · show (applyDefaults t (applyOverrides t _)).identityFile = _
    rw [merged_identityFile]

/-- The resolved run configuration of `worldFull` and
`tunnelAliasOnly`. -/
def rcResolved : RunConfig where
  localAddress := "localhost:8080"
  remoteAddress := "r:1"
  hostName := "example.com"
  user := "alice"
  port := 2222
  identityFile := ""
  clientConfig := some
    { user := "alice", signers := ["SIG"], hostKeyCallback := (), timeout := 10 }

/-- Witness for C1: the port of the concrete resolution comes from the
configuration file (2222), the user likewise (alice), the identity file
from nowhere (empty). -/
theorem c1_precedence_witness :
    rcResolved.user = "alice" ∧ rcResolved.port = 2222 ∧
    rcResolved.identityFile = "" := by
  have h := c1_precedence worldFull tunnelAliasOnly "CFG" confMyhost rcResolved
    (by decide) rfl (by decide)
  exact ⟨h.1.trans (by decide), h.2.1.trans (by decide), h.2.2.trans (by decide)⟩

/-- C5 counterexample: in `worldPerm` the config file exists but cannot
be opened (a permission failure, not absence); the claim calls this
fatal, yet the resolution succeeds — the open error is swallowed exactly
like a missing file. -/
theorem c5_counterexample :
    worldPerm.readFile (sshConfigPath worldPerm "config") = .error .permission ∧
    (makeRunConfig worldPerm tunnelDirect).1 = .ok
      { localAddress := "localhost:8080", remoteAddress := "r:1",
        hostName := "example.com", user := "u", port := 22, identityFile := "",
        clientConfig := some
          { user := "u", signers := ["SIG"], hostKeyCallback := (),
            timeout := 10 } } := by decide

/-- C5 (amended): a configuration file that fails to decode is fatal for
the tunnel with the underlying cause wrapped; a configuration file whose
open fails — missing OR unreadable — and a missing alias are never
errors, the affected fields simply remaining absent. -/
theorem c5_config_error_policy (w : World) (t : Tunnel) :
    (∀ contents cause, w.readFile (sshConfigPath w "config") = .ok contents →
        w.decode contents = .error cause →
        makeRunConfig w t =
          (.error ("could not parse SSH config: " ++
                   ("could not decode ssh config: " ++ cause)), [])) ∧
    (∀ fe, w.readFile (sshConfigPath w "config") = .error fe →
        parseSSHConf w t.host {} = .ok {}) ∧
    (∀ contents conf, w.readFile (sshConfigPath w "config") = .ok contents →
        w.decode contents = .ok conf → (∀ k, conf t.host k = "") →
        parseSSHConf w t.host {} = .ok {}) := by
  refine ⟨fun contents cause hr hd => ?_, fun fe hr => ?_,
          fun contents conf hr hd hk => ?_⟩
  · simp [makeRunConfig, parseSSHConf, hr, hd]
  · simp [parseSSHConf, hr]
  · simp [parseSSHConf, hr, hd, hk, atoi, atoiParse]

/-- Witness for C5 (amended): a decode failure is fatal and wrapped; a
missing file and a blank entry both resolve to the untouched zero run
configuration. -/
theorem c5_config_error_policy_witness :
    makeRunConfig worldBadDecode tunnelDirect =
      (.error "could not parse SSH config: could not decode ssh config: bad", []) ∧
    parseSSHConf worldBare tunnelDirect.host {} = .ok {} ∧
    parseSSHConf worldBlankConf tunnelDirect.host {} = .ok {} :=
  ⟨(c5_config_error_policy worldBadDecode tunnelDirect).1 "CFG" "bad"
      (by decide) rfl,
   (c5_config_error_policy worldBare tunnelDirect).2.1 .notExist (by decide),
   (c5_config_error_policy worldBlankConf tunnelDirect).2.2 "CFG" confBlank
      (by decide) rfl (fun _ => rfl)⟩

lemma makeClientConfig_fails_of_kh (w : World) (e : String)
    (h : w.knownHostsNew (sshConfigPath w "known_hosts") = .error e)
    (u idf : String) : isOk (makeClientConfig w u idf).1 = false := by
  by_cases hs : (scanKeys w (idf :: defaultKeys)).1 = []
  · simp [makeClientConfig, hs, isOk]
  · simp [makeClientConfig, hs, h, isOk]

lemma makeClientConfig_err_of_kh (w : World) (e : String)
    (h : w.knownHostsNew (sshConfigPath w "known_hosts") = .error e)
    (u idf : String) (hs : (scanKeys w (idf :: defaultKeys)).1 ≠ []) :
    (makeClientConfig w u idf).1 = .error e := by
  simp [makeClientConfig, hs, h]

lemma makeRunConfig_fails_of_kh (w : World) (e : String)
    (h : w.knownHostsNew (sshConfigPath w "known_hosts") = .error e)
    (t : Tunnel) : isOk (makeRunConfig w t).1 = false := by
  unfold makeRunConfig
  cases hp : parseSSHConf w t.host {} with
  | error e2 => simp [isOk]
  | ok rc0 =>
    simp only
    cases hv : validate (applyDefaults t (applyOverrides t rc0)) with
    | error e2 => simp [isOk]
    | ok u2 =>
      cases u2
      have h1 := makeClientConfig_fails_of_kh w e h
        (applyDefaults t (applyOverrides t rc0)).user
        (applyDefaults t (applyOverrides t rc0)).identityFile
      cases hmc : makeClientConfig w (applyDefaults t (applyOverrides t rc0)).user
          (applyDefaults t (applyOverrides t rc0)).identityFile with
      | mk res warns =>
        cases res with
        | error e2 => simp [isOk]
        | ok cc => rw [hmc] at h1; simp [isOk] at h1

/-- C6: when the known-hosts trust-verification callback cannot be
constructed, client-config construction never succeeds (and, whenever
key scanning produced at least one signer, fails with exactly that
error, unwrapped), and the whole tunnel resolution fails — there is no
fallback. -/
theorem c6_knownhosts_fatal (w : World) (e : String)
    (h : w.knownHostsNew (sshConfigPath w "known_hosts") = .error e) :
    (∀ u idf, isOk (makeClientConfig w u idf).1 = false) ∧
    (∀ u idf, (scanKeys w (idf :: defaultKeys)).1 ≠ [] →
        (makeClientConfig w u idf).1 = .error e) ∧
    (∀ t, isOk (makeRunConfig w t).1 = false) :=
  ⟨makeClientConfig_fails_of_kh w e h, makeClientConfig_err_of_kh w e h,
   makeRunConfig_fails_of_kh w e h⟩

/-- Witness for C6 in a world whose known-hosts store cannot be built
but whose default key loads fine. -/
theorem c6_knownhosts_fatal_witness :
    (makeClientConfig worldKHFail "u" "").1 = .error "kh" ∧
    isOk (makeRunConfig worldKHFail tunnelDirect).1 = false :=
  ⟨(c6_knownhosts_fatal worldKHFail "kh" (by decide)).2.1 "u" "" (by decide),
   (c6_knownhosts_fatal worldKHFail "kh" (by decide)).2.2 tunnelDirect⟩

lemma error_of_not_isOk {ε α : Type} (x : Except ε α) (h : isOk x = false) :
    ∃ e, x = .error e := by
  cases x with
  | error e => exact ⟨e, rfl⟩
  | ok a => simp [isOk] at h

/-- C8: with a readable but unparsable declared identity file followed
by a valid first default key (the remaining candidates unreadable, the
trust store fine), `makeClientConfig` succeeds with exactly one signer
and emits exactly one warning naming the malformed candidate; and in
general a read failure on a candidate is skipped silently while a parse
failure warns and the scan continues, successes accumulating in scan
order. -/
theorem c8_key_scan_policy (w : World) (u idf b1 b2 e : String) (sg : Signer)
    (h1 : w.readFile (fillHome w.home idf) = .ok b1)
    (h2 : w.parseKey b1 = .error e)
    (h3 : w.readFile (fillHome w.home "~/.ssh/id_rsa") = .ok b2)
    (h4 : w.parseKey b2 = .ok sg)
    (h5 : isOk (w.readFile (fillHome w.home "~/.ssh/id_ecdsa")) = false)
    (h6 : isOk (w.readFile (fillHome w.home "~/.ssh/id_ed25519")) = false)
    (h7 : w.knownHostsNew (sshConfigPath w "known_hosts") = .ok ()) :
    makeClientConfig w u idf =
      (.ok { user := u, signers := [sg], hostKeyCallback := (),
             timeout := sshConnTimeout }, [warnMsg idf e]) ∧
    (∀ i rest fe, w.readFile (fillHome w.home i) = .error fe →
        scanKeys w (i :: rest) = scanKeys w rest) ∧
    (∀ i rest b e2, w.readFile (fillHome w.home i) = .ok b →
        w.parseKey b = .error e2 →
        scanKeys w (i :: rest) =
          ((scanKeys w rest).1, warnMsg i e2 :: (scanKeys w rest).2)) ∧
    (∀ i rest b sg2, w.readFile (fillHome w.home i) = .ok b →
        w.parseKey b = .ok sg2 →
        scanKeys w (i :: rest) =
          (sg2 :: (scanKeys w rest).1, (scanKeys w rest).2)) := by
  obtain ⟨f5, h5e⟩ := error_of_not_isOk _ h5
  obtain ⟨f6, h6e⟩ := error_of_not_isOk _ h6
  have hscan : scanKeys w (idf :: defaultKeys) = ([sg], [warnMsg idf e]) := by
    simp [defaultKeys, scanKeys, h1, h2, h3, h4, h5e, h6e]
  refine ⟨?_, fun i rest fe hr => by simp [scanKeys, hr],
          fun i rest b e2 hr hp => by simp [scanKeys, hr, hp],
          fun i rest b sg2 hr hp => by simp [scanKeys, hr, hp]⟩
  simp [makeClientConfig, hscan, h7]

/-- Witness for C8 at a concrete world with a malformed declared key
followed by a valid RSA default key. -/
theorem c8_key_scan_policy_witness :
    makeClientConfig worldBadKey "u" "~/.ssh/badkey" =
      (.ok { user := "u", signers := ["SIG"], hostKeyCallback := (), timeout := 10 },
       [warnMsg "~/.ssh/badkey" "parse"]) :=
  (c8_key_scan_policy worldBadKey "u" "~/.ssh/badkey" "BAD" "KEY" "parse" "SIG"
    (by decide) (by decide) (by decide) (by decide) (by decide) (by decide)
    (by decide)).1

/-- C9 counterexample: an explicit negative port (-1) passes validation
— which only rejects zero — and the resolution succeeds carrying
port -1, so a successful resolution's port need not be positive. -/
theorem c9_counterexample :
    (makeRunConfig worldPerm tunnelNegPort).1 = .ok
      { localAddress := "localhost:8080", remoteAddress := "r:1",
        hostName := "example.com", user := "u", port := -1, identityFile := "",
        clientConfig := some
          { user := "u", signers := ["SIG"], hostKeyCallback := (),
            timeout := 10 } } ∧
    (-1 : Int) < 0 := by decide

/-- C9 (amended): a successful resolution never carries port ZERO — the
run configuration handed to the connection layer has a non-zero (though
possibly negative, e.g. -1 as above) port. -/
theorem c9_port_nonzero (w : World) (t : Tunnel) (rc : RunConfig)
    (hok : (makeRunConfig w t).1 = .ok rc) : rc.port ≠ 0 := by
  obtain ⟨rc0, cc, hp0, hv, hrc⟩ := makeRunConfig_ok_shape w t rc hok
  have hf := validate_ok_fields _ hv
  subst hrc
  exact hf.2.2

/-- Witness for C9 (amended) at the concrete successful resolution of
`worldFull` and `tunnelAliasOnly`. -/
theorem c9_port_nonzero_witness : rcResolved.port ≠ 0 :=
  c9_port_nonzero worldFull tunnelAliasOnly rcResolved (by decide)

/-- C10: a `Port` directive whose text is not a syntactically valid
decimal integer is treated as unspecified: the parsed port is zero,
`parseSSHConf` still succeeds, and (absent an explicit override) the
merged configuration carries the default port 22. -/
theorem c10_invalid_port_text (w : World) (t : Tunnel) (contents : String)
    (conf : SSHConf)
    (hread : w.readFile (sshConfigPath w "config") = .ok contents)
    (hdec : w.decode contents = .ok conf)
    (hbad : atoiParse (conf t.host "Port") = none)
    (hp : t.port = 0) :
    atoi (conf t.host "Port") = 0 ∧
    parseSSHConf w t.host {} = .ok
      { identityFile := conf t.host "IdentityFile", user := conf t.host "User",
        port := 0, hostName := conf t.host "HostName" } ∧
    ∀ rc, preRC w t = .ok rc → rc.port = 22 := by
  have ha : atoi (conf t.host "Port") = 0 := by simp [atoi, hbad]
  have hps : parseSSHConf w t.host {} = .ok
      { identityFile := conf t.host "IdentityFile", user := conf t.host "User",
        port := 0, hostName := conf t.host "HostName" } := by
    simp [parseSSHConf, hread, hdec, ha]
  refine ⟨ha, hps, fun rc hrc => ?_⟩
  obtain ⟨rc0, hp0, hrceq⟩ := preRC_ok_inv w t rc hrc
  rw [hps] at hp0
  simp only [Except.ok.injEq] at hp0
  subst hp0
  subst hrceq
  rw [merged_port]
  simp [hp]

/-- Witness for C10 at a config whose `Port` text is `abc`: the merged
run configuration carries port 22. -/
theorem c10_invalid_port_text_witness :
    ({ identityFile := "", user := "alice", port := 22,
       hostName := "example.com" } : RunConfig).port = 22 :=
  (c10_invalid_port_text worldBadPort tunnelAliasOnly "CFG" confBadPort
    (by decide) rfl (by decide) rfl).2.2
    { identityFile := "", user := "alice", port := 22, hostName := "example.com" }
    (by decide)

end Boring
